import Mathlib

/-!
Shallow embedding of `src/test-agent-config.py` (class `AgentConfigTester`),
a pre-deployment linter for an AWS Bedrock Agent CloudFormation template.

The parsed YAML document is modelled by the inductive `Yaml` (Python `None`
is `Yaml.null`, dicts are association lists in insertion order, matching
`yaml.safe_load`'s use of ordinary Python dicts).  Each method of the class
is translated to a Lean function from the stored template value to the pair
(list of printed lines, `Except`-result): `Except.error e` models the method
raising an uncaught Python exception `e` (exception messages are abstracted
to their kind: "TypeError", "KeyError", "AttributeError"), and the printed
lines accumulated before the raise are kept, as `print` runs eagerly.
External effects (the file read in `load_template`, the boto3 call in
`validate_template_syntax`) are parameters of type `Except String _`.
-/

/-- A parsed YAML document: Python `None`, booleans, integers, strings,
lists and dicts (association lists in insertion order). -/
inductive Yaml where
  | null : Yaml
  | bool (b : Bool) : Yaml
  | int (n : Int) : Yaml
  | str (s : String) : Yaml
  | list (xs : List Yaml) : Yaml
  | map (kvs : List (String × Yaml)) : Yaml
deriving Repr

/-- Python truthiness: `None`, `False`, `0`, `""`, `[]`, `{}` are falsy. -/
def truthy : Yaml → Bool
  | .null => false
  | .bool b => b
  | .int n => n != 0
  | .str s => s != ""
  | .list xs => !xs.isEmpty
  | .map kvs => !kvs.isEmpty

/-- Association-list lookup (first binding wins, like a Python dict where
keys are unique anyway). -/
def assoc : List (String × Yaml) → String → Option Yaml
  | [], _ => none
  | (k, v) :: kvs, key => if k = key then some v else assoc kvs key

mutual

/-- Structural equality on documents, mirroring Python `==` on the values
the script actually compares (strings, and lists of strings, against
same-typed or differently-typed document values). -/
def yamlBEq : Yaml → Yaml → Bool
  | .null, .null => true
  | .bool a, .bool b => a == b
  | .int a, .int b => a == b
  | .str a, .str b => a == b
  | .list xs, .list ys => yamlListBEq xs ys
  | .map xs, .map ys => yamlPairsBEq xs ys
  | _, _ => false

def yamlListBEq : List Yaml → List Yaml → Bool
  | [], [] => true
  | x :: xs, y :: ys => yamlBEq x y && yamlListBEq xs ys
  | _, _ => false

def yamlPairsBEq : List (String × Yaml) → List (String × Yaml) → Bool
  | [], [] => true
  | (k, v) :: xs, (l, w) :: ys => k == l && yamlBEq v w && yamlPairsBEq xs ys
  | _, _ => false

end

mutual

/-- Python `repr` of a document value, as used by `str()` on containers. -/
def pyRepr : Yaml → String
  | .null => "None"
  | .bool true => "True"
  | .bool false => "False"
  | .int n => toString n
  | .str s => "\x27" ++ s ++ "\x27"
  | .list xs => "[" ++ pyReprList xs ++ "]"
  | .map kvs => "\x7b" ++ pyReprPairs kvs ++ "\x7d"

def pyReprList : List Yaml → String
  | [] => ""
  | [x] => pyRepr x
  | x :: xs => pyRepr x ++ ", " ++ pyReprList xs

def pyReprPairs : List (String × Yaml) → String
  | [] => ""
  | [(k, v)] => "\x27" ++ k ++ "\x27: " ++ pyRepr v
  | (k, v) :: kvs => "\x27" ++ k ++ "\x27: " ++ pyRepr v ++ ", " ++ pyReprPairs kvs

end

/-- Python `str()` of a document value, as interpolated by f-strings. -/
def pyStr : Yaml → String
  | .str s => s
  | v => pyRepr v

/-- Substring test, for Python `key in s` when `s` is a string. -/
def strContains (s pat : String) : Bool :=
  if pat = "" then true else (s.splitOn pat).length ≥ 2

/-- Python `key in y` / `key not in y`: key membership for dicts, element
membership for lists, substring for strings; `TypeError` otherwise. -/
def pyContains (y : Yaml) (key : String) : Except String Bool :=
  match y with
  | .map kvs => .ok (assoc kvs key).isSome
  | .list xs => .ok (xs.any (fun v => yamlBEq v (.str key)))
  | .str s => .ok (strContains s key)
  | _ => .error "TypeError"

/-- Python subscript `y[key]`: dict lookup (`KeyError` when absent),
`TypeError` on any non-dict. -/
def pyGetItem (y : Yaml) (key : String) : Except String Yaml :=
  match y with
  | .map kvs =>
    match assoc kvs key with
    | some v => .ok v
    | none => .error "KeyError"
  | _ => .error "TypeError"

/-- Python `y.get(key, default)`: only dicts have `.get`, everything else
raises `AttributeError`. -/
def pyGet (y : Yaml) (key : String) (dflt : Yaml) : Except String Yaml :=
  match y with
  | .map kvs => .ok ((assoc kvs key).getD dflt)
  | _ => .error "AttributeError"

/-- Python `len(y)`: characters of a string, elements of a list, keys of a
dict; `TypeError` otherwise. -/
def pyLen : Yaml → Except String Nat
  | .str s => .ok s.length
  | .list xs => .ok xs.length
  | .map kvs => .ok kvs.length
  | _ => .error "TypeError"

/-! ### The class state and its methods

`AgentConfigTester` holds the template file name and the stored parsed
document (`template = None` initially, modelled as `Yaml.null`).  The file
read in `load_template` is an external effect, passed in as
`ext : Except String Yaml` (ok = parsed document, error = any IO/parse
exception, all caught by the method's own try/except). -/

structure AgentConfigTester where
  template_file : String
  template : Yaml

/-- Constructor default: `AgentConfigTester(template_file="bedrock-agent-template.yaml")`. -/
def default_template_file : String := "bedrock-agent-template.yaml"

def AgentConfigTester.init (file : String) : AgentConfigTester :=
  { template_file := file, template := .null }

/-- Method `load_template`: on a successful read+parse stores the document and
returns True; on any exception prints the error and returns False, leaving
the stored document unchanged.  Never raises (it catches everything). -/
def load_template_op (ext : Except String Yaml) (s : AgentConfigTester) :
    AgentConfigTester × List String × Bool :=
  match ext with
  | .ok doc =>
    ({ s with template := doc },
     [s!"✅ Template loaded successfully: {s.template_file}"], true)
  | .error e => (s, [s!"❌ Error loading template: {e}"], false)

/-- Body of one iteration of the `check_parameters` loop, for parameter
`name` with expectation `expType` and (for Environment) `allowed`. -/
def checkOneParam (parameters : Yaml) (name : String) (expType : Yaml)
    (allowed : Option (List Yaml)) : List String × Except String Unit :=
  match pyContains parameters name with
  | .error e => ([], .error e)
  | .ok false => ([s!"❌ Missing parameter: {name}"], .ok ())
  | .ok true =>
    match pyGetItem parameters name with
    | .error e => ([], .error e)
    | .ok param =>
      match pyGet param "Default" (.str "No default") with
      | .error e => ([], .error e)
      | .ok dflt =>
        let line1 := s!"✅ {name}: {pyStr dflt}"
        match pyGet param "Type" .null with
        | .error e => ([line1], .error e)
        | .ok ptype =>
          let typeLines :=
            if !yamlBEq ptype expType then
              [s!"  ⚠️  Type mismatch: expected {pyStr expType}, got {pyStr ptype}"]
            else []
          match allowed with
          | none => (line1 :: typeLines, .ok ())
          | some expAllowed =>
            match pyContains param "AllowedValues" with
            | .error e => (line1 :: typeLines, .error e)
            | .ok false =>
              (line1 :: typeLines ++ [s!"  ⚠️  Missing AllowedValues for {name}"], .ok ())
            | .ok true =>
              match pyGetItem param "AllowedValues" with
              | .error e => (line1 :: typeLines, .error e)
              | .ok av =>
                if !yamlBEq av (.list expAllowed) then
                  (line1 :: typeLines ++ [s!"  ⚠️  AllowedValues mismatch for {name}"], .ok ())
                else (line1 :: typeLines, .ok ())

/-- Method `check_parameters`: fails iff the template is falsy or has no
`Parameters` key; otherwise walks the three required parameters (dict
insertion order: AgentName, FoundationModel, Environment) printing
presence and advisory warnings, and returns True. -/
def check_parameters (template : Yaml) : List String × Except String Bool :=
  if !truthy template then
    (["❌ No Parameters section found in template"], .ok false)
  else
    match pyContains template "Parameters" with
    | .error e => ([], .error e)
    | .ok false => (["❌ No Parameters section found in template"], .ok false)
    | .ok true =>
      match pyGetItem template "Parameters" with
      | .error e => ([], .error e)
      | .ok parameters =>
        let hdr := "\n🔍 Checking Parameters:"
        let r1 := checkOneParam parameters "AgentName" (.str "String") none
        match r1.2 with
        | .error e => (hdr :: r1.1, .error e)
        | .ok _ =>
          let r2 := checkOneParam parameters "FoundationModel" (.str "String") none
          match r2.2 with
          | .error e => (hdr :: (r1.1 ++ r2.1), .error e)
          | .ok _ =>
            let r3 := checkOneParam parameters "Environment" (.str "String")
              (some [.str "dev", .str "test", .str "prod"])
            (hdr :: (r1.1 ++ r2.1 ++ r3.1),
             match r3.2 with
             | .error e => .error e
             | .ok _ => .ok true)

def expected_resources : List String :=
  ["BedrockAgentRole", "BedrockAgent", "BedrockAgentAlias", "AgentLogGroup"]

/-- The `for resource in expected_resources` loop of `check_resources`. -/
def checkResourceItems (resources : Yaml) : List String → List String × Except String Unit
  | [] => ([], .ok ())
  | r :: rest =>
    match pyContains resources r with
    | .error e => ([], .error e)
    | .ok true =>
      match pyGetItem resources r with
      | .error e => ([], .error e)
      | .ok entry =>
        match pyGet entry "Type" (.str "Unknown") with
        | .error e => ([], .error e)
        | .ok rtype =>
          let restR := checkResourceItems resources rest
          (s!"✅ {r}: {pyStr rtype}" :: restR.1, restR.2)
    | .ok false =>
      let restR := checkResourceItems resources rest
      (s!"❌ Missing resource: {r}" :: restR.1, restR.2)

/-- Method `check_resources`: fails iff the template is falsy or has no
`Resources` key; otherwise reports each expected resource and returns
True regardless of individual absences. -/
def check_resources (template : Yaml) : List String × Except String Bool :=
  if !truthy template then
    (["❌ No Resources section found in template"], .ok false)
  else
    match pyContains template "Resources" with
    | .error e => ([], .error e)
    | .ok false => (["❌ No Resources section found in template"], .ok false)
    | .ok true =>
      match pyGetItem template "Resources" with
      | .error e => ([], .error e)
      | .ok resources =>
        let r := checkResourceItems resources expected_resources
        ("\n🔍 Checking Resources:" :: r.1,
         match r.2 with
         | .error e => .error e
         | .ok _ => .ok true)

/-- Method `check_bedrock_agent_config`: silently fails when the template is falsy
or has no `Resources` key; fails with a message when `BedrockAgent` is
absent from Resources; otherwise reports the agent's properties and
returns True. -/
def check_bedrock_agent_config (template : Yaml) : List String × Except String Bool :=
  if !truthy template then ([], .ok false)
  else
    match pyContains template "Resources" with
    | .error e => ([], .error e)
    | .ok false => ([], .ok false)
    | .ok true =>
      match pyGetItem template "Resources" with
      | .error e => ([], .error e)
      | .ok resources =>
        match pyContains resources "BedrockAgent" with
        | .error e => ([], .error e)
        | .ok false => (["❌ BedrockAgent resource not found"], .ok false)
        | .ok true =>
          match pyGetItem resources "BedrockAgent" with
          | .error e => ([], .error e)
          | .ok agent =>
            match pyGet agent "Properties" (.map []) with
            | .error e => ([], .error e)
            | .ok properties =>
              let hdr := "\n🔍 Checking Bedrock Agent Configuration:"
              match pyGet properties "FoundationModel" (.str "Not set") with
              | .error e => ([hdr], .error e)
              | .ok fm =>
                let fmLine := s!"✅ Foundation Model: {pyStr fm}"
                match pyContains properties "Instruction" with
                | .error e => ([hdr, fmLine], .error e)
                | .ok hasInstr =>
                  match (if hasInstr then
                           match pyGetItem properties "Instruction" with
                           | .error e => .error e
                           | .ok instr =>
                             match pyLen instr with
                             | .error e => .error e
                             | .ok n => .ok s!"✅ Agent Instruction: {n} characters"
                         else .ok "❌ Missing Agent Instruction" :
                          Except String String) with
                  | .error e => ([hdr, fmLine], .error e)
                  | .ok instrLine =>
                    match pyGet properties "IdleSessionTTLInSeconds" (.str "Not set") with
                    | .error e => ([hdr, fmLine, instrLine], .error e)
                    | .ok ttl =>
                      let ttlLine := s!"✅ Idle Session TTL: {pyStr ttl} seconds"
                      match pyContains properties "PromptOverrideConfiguration" with
                      | .error e => ([hdr, fmLine, instrLine, ttlLine], .error e)
                      | .ok true =>
                        let presentLine := "✅ Prompt Override Configuration: Present"
                        match pyGetItem properties "PromptOverrideConfiguration" with
                        | .error e => ([hdr, fmLine, instrLine, ttlLine, presentLine], .error e)
                        | .ok poc =>
                          match pyContains poc "PromptConfigurations" with
                          | .error e => ([hdr, fmLine, instrLine, ttlLine, presentLine], .error e)
                          | .ok true =>
                            match pyGetItem poc "PromptConfigurations" with
                            | .error e =>
                              ([hdr, fmLine, instrLine, ttlLine, presentLine], .error e)
                            | .ok pcs =>
                              match pyLen pcs with
                              | .error e =>
                                ([hdr, fmLine, instrLine, ttlLine, presentLine], .error e)
                              | .ok k =>
                                ([hdr, fmLine, instrLine, ttlLine, presentLine,
                                  s!"   📝 {k} prompt configurations found"], .ok true)
                          | .ok false =>
                            ([hdr, fmLine, instrLine, ttlLine, presentLine], .ok true)
                      | .ok false =>
                        ([hdr, fmLine, instrLine, ttlLine,
                          "⚠️  No Prompt Override Configuration"], .ok true)

def expected_outputs : List String :=
  ["AgentId", "AgentAliasId", "AgentRoleArn", "AgentAliasArn", "FoundationModelUsed"]

/-- The `for output in expected_outputs` loop of `check_outputs`. -/
def checkOutputItems (outputs : Yaml) : List String → List String × Except String Unit
  | [] => ([], .ok ())
  | o :: rest =>
    match pyContains outputs o with
    | .error e => ([], .error e)
    | .ok true =>
      let restR := checkOutputItems outputs rest
      (s!"✅ {o}" :: restR.1, restR.2)
    | .ok false =>
      let restR := checkOutputItems outputs rest
      (s!"❌ Missing output: {o}" :: restR.1, restR.2)

/-- Method `check_outputs`: fails iff the template is falsy or has no `Outputs`
key; otherwise reports each expected output and returns True. -/
def check_outputs (template : Yaml) : List String × Except String Bool :=
  if !truthy template then
    (["❌ No Outputs section found in template"], .ok false)
  else
    match pyContains template "Outputs" with
    | .error e => ([], .error e)
    | .ok false => (["❌ No Outputs section found in template"], .ok false)
    | .ok true =>
      match pyGetItem template "Outputs" with
      | .error e => ([], .error e)
      | .ok outputs =>
        let r := checkOutputItems outputs expected_outputs
        ("\n🔍 Checking Outputs:" :: r.1,
         match r.2 with
         | .error e => .error e
         | .ok _ => .ok true)

/-- One `if name in template: print(f"name: {len(template[name])}")` block
of `generate_summary`. -/
def summaryCount (template : Yaml) (name : String) : List String × Except String Unit :=
  match pyContains template name with
  | .error e => ([], .error e)
  | .ok false => ([], .ok ())
  | .ok true =>
    match pyGetItem template name with
    | .error e => ([], .error e)
    | .ok v =>
      match pyLen v with
      | .error e => ([], .error e)
      | .ok n => ([s!"{name}: {n}"], .ok ())

/-- Method `generate_summary`: prints a header, then (for a truthy template) the
description, format version and section entry counts.  Unlike the check
methods it is NOT called inside a try/except by `run_all_checks`, so an
exception here (a truthy non-dict template, or a section value without
`len`) propagates. -/
def generate_summary (template : Yaml) : List String × Except String Unit :=
  let hdr := ["\n📊 Template Summary:", String.mk (List.replicate 50 '=')]
  if !truthy template then (hdr, .ok ())
  else
    match pyGet template "Description" (.str "No description") with
    | .error e => (hdr, .error e)
    | .ok desc =>
      let l1 := s!"Description: {pyStr desc}"
      match pyGet template "AWSTemplateFormatVersion" (.str "Not specified") with
      | .error e => (hdr ++ [l1], .error e)
      | .ok ver =>
        let l2 := s!"AWSTemplateFormatVersion: {pyStr ver}"
        let c1 := summaryCount template "Parameters"
        match c1.2 with
        | .error e => (hdr ++ [l1, l2] ++ c1.1, .error e)
        | .ok _ =>
          let c2 := summaryCount template "Resources"
          match c2.2 with
          | .error e => (hdr ++ [l1, l2] ++ c1.1 ++ c2.1, .error e)
          | .ok _ =>
            let c3 := summaryCount template "Outputs"
            (hdr ++ [l1, l2] ++ c1.1 ++ c2.1 ++ c3.1, c3.2)

/-! ### Method wrappers at the state level

The Python methods other than `__init__` and `load_template` contain no
assignment to `self.template`; their state-level wrappers therefore return
the state unchanged and delegate to the pure functions above. -/

def check_parameters_op (s : AgentConfigTester) :
    AgentConfigTester × (List String × Except String Bool) :=
  (s, check_parameters s.template)

def check_resources_op (s : AgentConfigTester) :
    AgentConfigTester × (List String × Except String Bool) :=
  (s, check_resources s.template)

def check_bedrock_agent_config_op (s : AgentConfigTester) :
    AgentConfigTester × (List String × Except String Bool) :=
  (s, check_bedrock_agent_config s.template)

def check_outputs_op (s : AgentConfigTester) :
    AgentConfigTester × (List String × Except String Bool) :=
  (s, check_outputs s.template)

def generate_summary_op (s : AgentConfigTester) :
    AgentConfigTester × (List String × Except String Unit) :=
  (s, generate_summary s.template)

/-- Method `validate_template_syntax`: the file read and the boto3
`validate_template` call are a single external effect `ext`.  The method's
own try/except catches every exception, so it never raises: it prints a
confirmation and returns True on success, prints the error and returns
False otherwise. -/
def validate_template_syntax (ext : Except String Unit) : List String × Bool :=
  match ext with
  | .ok _ => (["✅ CloudFormation template syntax is valid"], true)
  | .error e => ([s!"❌ Template validation error: {e}"], false)

def validate_template_syntax_op (ext : Except String Unit) (s : AgentConfigTester) :
    AgentConfigTester × (List String × Bool) :=
  (s, validate_template_syntax ext)

/-- The `for check in checks` loop of `run_all_checks`: each entry is the
step's name and its (already evaluated) printed lines and result; a step
returning True bumps the counter, a raising step prints
`❌ Error in <name>: <e>` instead and the loop continues. -/
def runChecksLoop : List (String × (List String × Except String Bool)) → List String × Nat
  | [] => ([], 0)
  | (name, r) :: rest =>
    let step :=
      match r.2 with
      | .ok b => (r.1, if b then 1 else 0)
      | .error e => (r.1 ++ [s!"❌ Error in {name}: {e}"], 0)
    let restR := runChecksLoop rest
    (step.1 ++ restR.1, step.2 + restR.2)

/-- Method `run_all_checks`: runs the five steps in their fixed order, each inside
the loop's try/except, then calls `generate_summary` (outside any
try/except: its exceptions propagate), prints the `passed/5` tally and the
final banner, and returns whether all five passed.  `load_template` itself
never raises, so its loop entry always carries an `ok` result. -/
def run_all_checks_op (ext : Except String Yaml) (s : AgentConfigTester) :
    AgentConfigTester × (List String × Except String Bool) :=
  let banner := ["🚀 Starting AWS Bedrock Agent Template Validation",
                 String.mk (List.replicate 60 '=')]
  let l := load_template_op ext s
  let s1 := l.1
  let loop := runChecksLoop
    [("load_template", (l.2.1, .ok l.2.2)),
     ("check_parameters", (check_parameters_op s1).2),
     ("check_resources", (check_resources_op s1).2),
     ("check_bedrock_agent_config", (check_bedrock_agent_config_op s1).2),
     ("check_outputs", (check_outputs_op s1).2)]
  let summ := (generate_summary_op s1).2
  match summ.2 with
  | .error e => (s1, (banner ++ loop.1 ++ summ.1, .error e))
  | .ok _ =>
    let passed := loop.2
    (s1,
     (banner ++ loop.1 ++ summ.1
       ++ [s!"\n✅ Validation complete: {passed}/5 checks passed"]
       ++ (if passed == 5 then ["🎉 Template is ready for deployment!"]
           else ["⚠️  Please review and fix the issues above"]),
      .ok (passed == 5)))

/-- Function `main` behaviour of `run_all_checks` on a fresh tester (the printed lines
and the returned value). -/
def run_all_checks (ext : Except String Yaml) : List String × Except String Bool :=
  (run_all_checks_op ext (AgentConfigTester.init default_template_file)).2

/-- Function `main()`: a fresh tester, `run_all_checks`, then the "Attempting AWS
CloudFormation validation" banner and `validate_template_syntax`.  The
try/except in `main` (which would print "⚠️  AWS validation skipped" and
"   Make sure you have AWS credentials configured") only fires if
`validate_template_syntax` raises, which it never does.  An exception
escaping `run_all_checks` (from `generate_summary`) is uncaught and kills
the process, modelled by the `.error` result. -/
def main_run (extLoad : Except String Yaml) (extValidate : Except String Unit) :
    List String × Except String Unit :=
  match run_all_checks extLoad with
  | (out, .error e) => (out, .error e)
  | (out, .ok _) =>
    let v := validate_template_syntax extValidate
    (out ++ ["\n🔍 Attempting AWS CloudFormation validation..."] ++ v.1, .ok ())

/-! ### Shape predicates used by the theorem statements

"Document", "section", "resource" below follow the spec's data model: a
section is a top-level mapping entry, a resource is a mapping with a type
and a property bag.  `mapOrFalsy` delimits documents whose top level is a
mapping (or is falsy, i.e. carries no sections at all). -/

def Yaml.isMap : Yaml → Bool
  | .map _ => true
  | _ => false

/-- The document is falsy (empty/null/...) or a top-level mapping: the
shape on which "has / lacks a top-level section" is meaningful. -/
def mapOrFalsy (t : Yaml) : Bool := !truthy t || t.isMap

/-- The document is a mapping with key `k` (falsy and non-mapping
documents have no keys). -/
def hasKey (t : Yaml) (k : String) : Bool :=
  match t with
  | .map kvs => (assoc kvs k).isSome
  | _ => false

/-- The value of top-level key `k`, when the document is a mapping. -/
def lookupSection (t : Yaml) (k : String) : Option Yaml :=
  match t with
  | .map kvs => assoc kvs k
  | _ => none

/-- Key `k` is either absent or bound to a mapping. -/
def mapIfPresent (kvs : List (String × Yaml)) (k : String) : Bool :=
  match assoc kvs k with
  | some (.map _) => true
  | some _ => false
  | none => true

/-- The value bound to `k`, if any, supports `len()`. -/
def lenOkIfPresent (kvs : List (String × Yaml)) (k : String) : Bool :=
  match assoc kvs k with
  | some v => (pyLen v).isOk
  | none => true

/-- The three required parameters, where declared, are mappings (so their
`.get`/`[...]` accesses cannot raise). -/
def paramEntriesOk (ps : List (String × Yaml)) : Bool :=
  mapIfPresent ps "AgentName" && mapIfPresent ps "FoundationModel" &&
    mapIfPresent ps "Environment"

/-- The `Parameters` section exists as a mapping with well-shaped required
entries. -/
def paramsSectionOk (kvs : List (String × Yaml)) : Bool :=
  match assoc kvs "Parameters" with
  | some (.map ps) => paramEntriesOk ps
  | _ => false

/-- The `BedrockAgent` property bag is well-shaped: `Properties` (if
declared) is a mapping, its `Instruction` (if declared) is a string, its
`PromptOverrideConfiguration` (if declared) is a mapping whose
`PromptConfigurations` (if declared) is a list. -/
def agentPropertiesOk (am : List (String × Yaml)) : Bool :=
  match assoc am "Properties" with
  | none => true
  | some (.map pm) =>
    (match assoc pm "Instruction" with
     | none => true
     | some (.str _) => true
     | some _ => false) &&
    (match assoc pm "PromptOverrideConfiguration" with
     | none => true
     | some (.map pc) =>
       (match assoc pc "PromptConfigurations" with
        | none => true
        | some (.list _) => true
        | some _ => false)
     | some _ => false)
  | some _ => false

/-- The primary `BedrockAgent` resource exists as a mapping with a
well-shaped property bag. -/
def bedrockAgentOk (rs : List (String × Yaml)) : Bool :=
  match assoc rs "BedrockAgent" with
  | some (.map am) => agentPropertiesOk am
  | _ => false

/-- The `Resources` section exists as a mapping, every expected resource is
declared as a mapping, and the agent resource is well-shaped. -/
def resourcesSectionOk (kvs : List (String × Yaml)) : Bool :=
  match assoc kvs "Resources" with
  | some (.map rs) =>
    expected_resources.all (fun r => mapIfPresent rs r && (assoc rs r).isSome) &&
      bedrockAgentOk rs
  | _ => false

/-- The `Outputs` section exists as a mapping declaring every expected
output. -/
def outputsSectionOk (kvs : List (String × Yaml)) : Bool :=
  match assoc kvs "Outputs" with
  | some (.map os) => expected_outputs.all (fun o => (assoc os o).isSome)
  | _ => false

/-- A document in which every expected section, resource and output is
present and shaped as the template language prescribes. -/
def goodTemplate : Yaml → Bool
  | .map kvs => paramsSectionOk kvs && resourcesSectionOk kvs && outputsSectionOk kvs
  | _ => false

/-- If present, the expected resources in `Resources` are mappings (so the
`check_resources` loop cannot raise); vacuous for documents without a
`Resources` mapping. -/
def resourceEntriesOk (t : Yaml) : Bool :=
  match t with
  | .map kvs =>
    match assoc kvs "Resources" with
    | none => true
    | some (.map rs) => expected_resources.all (fun r => mapIfPresent rs r)
    | some _ => false
  | _ => true

/-- If present, the `Outputs` section is a mapping. -/
def outputsValueOk (t : Yaml) : Bool :=
  match t with
  | .map kvs =>
    match assoc kvs "Outputs" with
    | none => true
    | some (.map _) => true
    | some _ => false
  | _ => true

/-- The `Instruction` property, if declared, supports `len()`. -/
def instrLenOk (pm : List (String × Yaml)) : Bool :=
  lenOkIfPresent pm "Instruction"

/-- The parsed document stored by a load whose read+parse gave `ext`
(`None` when the load failed). -/
def templateOf : Except String Yaml → Yaml
  | .ok doc => doc
  | .error _ => .null

/-- The three section values, where present, support `len()` (so
`generate_summary` cannot raise on them); vacuous on non-mappings. -/
def summaryLensOk (t : Yaml) : Bool :=
  match t with
  | .map kvs =>
    lenOkIfPresent kvs "Parameters" && lenOkIfPresent kvs "Resources" &&
      lenOkIfPresent kvs "Outputs"
  | _ => true

/-- The document is safe for `generate_summary`: its top level is a mapping
(or falsy) and its section values support `len()`. -/
def summaryOk (t : Yaml) : Bool := mapOrFalsy t && summaryLensOk t

/-- The five (name, evaluated step) pairs that `run_all_checks` feeds to
its loop, for a fresh tester whose load effect is `ext`. -/
def runAllSteps (ext : Except String Yaml) :
    List (String × (List String × Except String Bool)) :=
  let l := load_template_op ext (AgentConfigTester.init default_template_file)
  [("load_template", (l.2.1, .ok l.2.2)),
   ("check_parameters", check_parameters (templateOf ext)),
   ("check_resources", check_resources (templateOf ext)),
   ("check_bedrock_agent_config", check_bedrock_agent_config (templateOf ext)),
   ("check_outputs", check_outputs (templateOf ext))]

/-- The example document of the specification: all sections, resources and
outputs present, no prompt-override block. -/
def exampleTemplate : Yaml := .map [
  ("Parameters", .map [
    ("AgentName", .map [("Type", .str "String"), ("Default", .str "a")]),
    ("FoundationModel", .map [("Type", .str "String")]),
    ("Environment", .map [("Type", .str "String"),
      ("AllowedValues", .list [.str "dev", .str "test", .str "prod"])])]),
  ("Resources", .map [
    ("BedrockAgentRole", .map [("Type", .str "AWS::IAM::Role")]),
    ("BedrockAgent", .map [("Type", .str "AWS::Bedrock::Agent"), ("Properties", .map [
      ("FoundationModel", .str "m"), ("Instruction", .str "hello"),
      ("IdleSessionTTLInSeconds", .int 600)])]),
    ("BedrockAgentAlias", .map [("Type", .str "AWS::Bedrock::AgentAlias")]),
    ("AgentLogGroup", .map [("Type", .str "AWS::Logs::LogGroup")])]),
  ("Outputs", .map [
    ("AgentId", .map []), ("AgentAliasId", .map []), ("AgentRoleArn", .map []),
    ("AgentAliasArn", .map []), ("FoundationModelUsed", .map [])])]

/-- The contribution of one evaluated step to the pass tally: 1 when it
returned True, 0 when it returned False or raised. -/
def stepPassCount (r : List String × Except String Bool) : Nat :=
  match r.2 with
  | .ok true => 1
  | _ => 0

/-- The pass tally of a whole run: one for the load step when the read
effect succeeded, plus the contribution of each of the four checks. -/
def passCount (ext : Except String Yaml) : Nat :=
  (match ext with | .ok _ => 1 | .error _ => 0)
    + stepPassCount (check_parameters (templateOf ext))
    + stepPassCount (check_resources (templateOf ext))
    + stepPassCount (check_bedrock_agent_config (templateOf ext))
    + stepPassCount (check_outputs (templateOf ext))

/-! ### Helper lemmas -/

theorem assoc_nil (k : String) : assoc [] k = none := rfl

theorem truthy_of_assoc {kvs : List (String × Yaml)} {k : String} {v : Yaml}
    (h : assoc kvs k = some v) : truthy (.map kvs) = true := by
  cases kvs with
  | nil => simp [assoc] at h
  | cons p ps => simp [truthy, List.isEmpty]

theorem truthy_of_isSome {kvs : List (String × Yaml)} {k : String}
    (h : (assoc kvs k).isSome = true) : truthy (.map kvs) = true := by
  cases hv : assoc kvs k with
  | none => rw [hv] at h; simp at h
  | some v => exact truthy_of_assoc hv

/-- A well-shaped parameter entry never makes its loop iteration raise. -/
theorem checkOneParam_ok (ps : List (String × Yaml)) (name : String)
    (expType : Yaml) (allowed : Option (List Yaml))
    (h : mapIfPresent ps name = true) :
    (checkOneParam (.map ps) name expType allowed).2 = .ok () := by
  unfold checkOneParam
  cases hv : assoc ps name with
  | none => simp [pyContains, hv]
  | some v =>
    cases v with
    | map pv =>
      simp only [pyContains, hv, Option.isSome_some, pyGetItem, pyGet]
      cases allowed with
      | none => simp
      | some expAllowed =>
        cases hav : assoc pv "AllowedValues" with
        | none => simp [hav]
        | some av => simp [hav]; split <;> simp
    | null => simp [mapIfPresent, hv] at h
    | bool b => simp [mapIfPresent, hv] at h
    | int n => simp [mapIfPresent, hv] at h
    | str s => simp [mapIfPresent, hv] at h
    | list xs => simp [mapIfPresent, hv] at h

/-- With a well-shaped `Parameters` section, `check_parameters` returns True. -/
theorem check_parameters_ok {kvs ps : List (String × Yaml)}
    (h : assoc kvs "Parameters" = some (.map ps)) (hp : paramEntriesOk ps = true) :
    (check_parameters (.map kvs)).2 = Except.ok true := by
  simp only [paramEntriesOk, Bool.and_eq_true] at hp
  obtain ⟨⟨h1, h2⟩, h3⟩ := hp
  have ht := truthy_of_assoc h
  unfold check_parameters
  simp [ht, pyContains, h, pyGetItem,
    checkOneParam_ok ps "AgentName" (Yaml.str "String") none h1,
    checkOneParam_ok ps "FoundationModel" (Yaml.str "String") none h2,
    checkOneParam_ok ps "Environment" (Yaml.str "String")
      (some [Yaml.str "dev", Yaml.str "test", Yaml.str "prod"]) h3]

/-- Without a `Parameters` key (or on a falsy document), `check_parameters`
prints the absence message and returns False. -/
theorem check_parameters_no_key {t : Yaml} (hm : mapOrFalsy t = true)
    (hk : hasKey t "Parameters" = false) :
    check_parameters t = (["❌ No Parameters section found in template"], Except.ok false) := by
  cases t <;>
    simp_all [mapOrFalsy, hasKey, Yaml.isMap, truthy, check_parameters, pyContains]

/-- With a `Parameters` key present, `check_parameters` never returns False
(it returns True or raises). -/
theorem check_parameters_ne_false {kvs : List (String × Yaml)} {v : Yaml}
    (h : assoc kvs "Parameters" = some v) :
    (check_parameters (.map kvs)).2 ≠ Except.ok false := by
  have ht := truthy_of_assoc h
  unfold check_parameters
  simp only [ht, Bool.not_true, pyContains, h, Option.isSome_some, pyGetItem]
  simp only [Bool.false_eq_true, if_false]
  repeat' (split <;> simp_all)

/-- The resources loop never raises when the expected entries, where
present, are mappings. -/
theorem checkResourceItems_ok {rs : List (String × Yaml)} {names : List String}
    (h : ∀ r ∈ names, mapIfPresent rs r = true) :
    (checkResourceItems (.map rs) names).2 = .ok () := by
  induction names with
  | nil => rfl
  | cons r rest ih =>
    have hr := h r (List.mem_cons_self ..)
    have hrest : ∀ x ∈ rest, mapIfPresent rs x = true :=
      fun x hx => h x (List.mem_cons_of_mem _ hx)
    unfold checkResourceItems
    cases hv : assoc rs r with
    | none => simp [pyContains, hv, ih hrest]
    | some v =>
      cases v <;> simp_all [mapIfPresent, pyContains, pyGetItem, pyGet, ih hrest]

/-- With a `Resources` mapping whose expected entries are well-shaped,
`check_resources` returns True. -/
theorem check_resources_ok {kvs rs : List (String × Yaml)}
    (h : assoc kvs "Resources" = some (.map rs))
    (hr : expected_resources.all (fun r => mapIfPresent rs r) = true) :
    (check_resources (.map kvs)).2 = Except.ok true := by
  have ht := truthy_of_assoc h
  have hitems : (checkResourceItems (.map rs) expected_resources).2 = .ok () :=
    checkResourceItems_ok (by simpa [List.all_eq_true] using hr)
  unfold check_resources
  simp [ht, pyContains, h, pyGetItem, hitems]

/-- Without a `Resources` key (or on a falsy document), `check_resources`
prints the absence message and returns False. -/
theorem check_resources_no_key {t : Yaml} (hm : mapOrFalsy t = true)
    (hk : hasKey t "Resources" = false) :
    check_resources t = (["❌ No Resources section found in template"], Except.ok false) := by
  cases t <;>
    simp_all [mapOrFalsy, hasKey, Yaml.isMap, truthy, check_resources, pyContains]

/-- With a `Resources` key present, `check_resources` never returns False. -/
theorem check_resources_ne_false {kvs : List (String × Yaml)} {v : Yaml}
    (h : assoc kvs "Resources" = some v) :
    (check_resources (.map kvs)).2 ≠ Except.ok false := by
  have ht := truthy_of_assoc h
  unfold check_resources
  simp only [ht, Bool.not_true, pyContains, h, Option.isSome_some, pyGetItem]
  simp only [Bool.false_eq_true, if_false]
  repeat' (split <;> simp_all)

/-- Without a `Resources` key (or on a falsy document),
`check_bedrock_agent_config` returns False and prints nothing at all. -/
theorem check_bedrock_no_resources {t : Yaml} (hm : mapOrFalsy t = true)
    (hk : hasKey t "Resources" = false) :
    check_bedrock_agent_config t = ([], Except.ok false) := by
  cases t <;>
    simp_all [mapOrFalsy, hasKey, Yaml.isMap, truthy, check_bedrock_agent_config, pyContains]

/-- With `Resources` present but no `BedrockAgent` entry,
`check_bedrock_agent_config` reports the absence and returns False. -/
theorem check_bedrock_no_agent {kvs rs : List (String × Yaml)}
    (h : assoc kvs "Resources" = some (.map rs))
    (ha : assoc rs "BedrockAgent" = none) :
    check_bedrock_agent_config (.map kvs) =
      (["❌ BedrockAgent resource not found"], Except.ok false) := by
  have ht := truthy_of_assoc h
  unfold check_bedrock_agent_config
  simp [ht, pyContains, h, pyGetItem, ha]

/-- With a well-shaped `BedrockAgent` resource, `check_bedrock_agent_config`
returns True. -/
theorem check_bedrock_ok {kvs rs : List (String × Yaml)}
    (h : assoc kvs "Resources" = some (.map rs)) (hb : bedrockAgentOk rs = true) :
    (check_bedrock_agent_config (.map kvs)).2 = Except.ok true := by
  have ht := truthy_of_assoc h
  unfold check_bedrock_agent_config
  cases hag : assoc rs "BedrockAgent" with
  | none => simp [bedrockAgentOk, hag] at hb
  | some ag =>
    cases ag with
    | map am =>
      simp only [bedrockAgentOk, hag] at hb
      cases hpr : assoc am "Properties" with
      | none =>
        simp [ht, pyContains, h, pyGetItem, hag, pyGet, hpr, assoc]
      | some props =>
        cases props with
        | map pm =>
          simp only [agentPropertiesOk, hpr, Bool.and_eq_true] at hb
          obtain ⟨hins, hpoc⟩ := hb
          cases hin : assoc pm "Instruction" with
          | none =>
            cases hpo : assoc pm "PromptOverrideConfiguration" with
            | none => simp [ht, pyContains, h, pyGetItem, hag, pyGet, hpr, hin, hpo]
            | some poc =>
              cases poc with
              | map pc =>
                cases hpc : assoc pc "PromptConfigurations" with
                | none => simp [ht, pyContains, h, pyGetItem, hag, pyGet, hpr, hin, hpo, hpc]
                | some pcs =>
                  cases pcs <;> rw [hpo] at hpoc <;>
                    simp_all [ht, pyContains, h, pyGetItem, hag, pyGet, hpr, hin, hpo,
                      hpc, pyLen]
              | null => rw [hpo] at hpoc; simp at hpoc
              | bool b => rw [hpo] at hpoc; simp at hpoc
              | int n => rw [hpo] at hpoc; simp at hpoc
              | str s => rw [hpo] at hpoc; simp at hpoc
              | list xs => rw [hpo] at hpoc; simp at hpoc
          | some ins =>
            cases ins <;> rw [hin] at hins <;> try simp at hins
            case str s =>
              cases hpo : assoc pm "PromptOverrideConfiguration" with
              | none => simp [ht, pyContains, h, pyGetItem, hag, pyGet, hpr, hin, hpo, pyLen]
              | some poc =>
                cases poc with
                | map pc =>
                  cases hpc : assoc pc "PromptConfigurations" with
                  | none =>
                    simp [ht, pyContains, h, pyGetItem, hag, pyGet, hpr, hin, hpo, hpc, pyLen]
                  | some pcs =>
                    cases pcs <;> rw [hpo] at hpoc <;>
                      simp_all [ht, pyContains, h, pyGetItem, hag, pyGet, hpr, hin, hpo,
                        hpc, pyLen]
                | null => rw [hpo] at hpoc; simp at hpoc
                | bool b => rw [hpo] at hpoc; simp at hpoc
                | int n => rw [hpo] at hpoc; simp at hpoc
                | str s' => rw [hpo] at hpoc; simp at hpoc
                | list xs => rw [hpo] at hpoc; simp at hpoc
        | null => simp [agentPropertiesOk, hpr] at hb
        | bool b => simp [agentPropertiesOk, hpr] at hb
        | int n => simp [agentPropertiesOk, hpr] at hb
        | str s => simp [agentPropertiesOk, hpr] at hb
        | list xs => simp [agentPropertiesOk, hpr] at hb
    | null => simp [bedrockAgentOk, hag] at hb
    | bool b => simp [bedrockAgentOk, hag] at hb
    | int n => simp [bedrockAgentOk, hag] at hb
    | str s => simp [bedrockAgentOk, hag] at hb
    | list xs => simp [bedrockAgentOk, hag] at hb

/-- With no `Instruction` property, the agent report contains the missing
label (whatever happens later in the method). -/
theorem check_bedrock_instr_missing {kvs rs am pm : List (String × Yaml)}
    (h : assoc kvs "Resources" = some (.map rs))
    (hag : assoc rs "BedrockAgent" = some (.map am))
    (hpr : (assoc am "Properties").getD (.map []) = .map pm)
    (hin : assoc pm "Instruction" = none) :
    "❌ Missing Agent Instruction" ∈ (check_bedrock_agent_config (.map kvs)).1 := by
  have ht := truthy_of_assoc h
  unfold check_bedrock_agent_config
  simp only [ht, Bool.not_true, Bool.false_eq_true, if_false, pyContains, h,
    Option.isSome_some, pyGetItem, hag, pyGet, hpr, hin, Option.isSome_none]
  repeat' (split <;> (try simp_all))

/-- With a string `Instruction` of length `L`, the agent report states
exactly `L` characters. -/
theorem check_bedrock_instr_len {kvs rs am pm : List (String × Yaml)} {s : String}
    (h : assoc kvs "Resources" = some (.map rs))
    (hag : assoc rs "BedrockAgent" = some (.map am))
    (hpr : (assoc am "Properties").getD (.map []) = .map pm)
    (hin : assoc pm "Instruction" = some (.str s)) :
    s!"✅ Agent Instruction: {s.length} characters" ∈ (check_bedrock_agent_config (.map kvs)).1 := by
  have ht := truthy_of_assoc h
  unfold check_bedrock_agent_config
  simp only [ht, Bool.not_true, Bool.false_eq_true, if_false, pyContains, h,
    Option.isSome_some, pyGetItem, hag, pyGet, hpr, hin, pyLen]
  repeat' (split <;> (try simp_all))

theorem pyLen_str (s : String) : pyLen (.str s) = .ok s.length := rfl

theorem pyLen_list (xs : List Yaml) : pyLen (.list xs) = .ok xs.length := rfl

/-- With a prompt-override block whose `PromptConfigurations` is a list of
length `K`, the report states exactly `K` configurations found and the
method returns True. -/
theorem check_bedrock_poc_count {kvs rs am pm pc : List (String × Yaml)} {ks : List Yaml}
    (h : assoc kvs "Resources" = some (.map rs))
    (hag : assoc rs "BedrockAgent" = some (.map am))
    (hpr : (assoc am "Properties").getD (.map []) = .map pm)
    (hins : instrLenOk pm = true)
    (hpo : assoc pm "PromptOverrideConfiguration" = some (.map pc))
    (hpc : assoc pc "PromptConfigurations" = some (.list ks)) :
    s!"   📝 {ks.length} prompt configurations found" ∈
        (check_bedrock_agent_config (.map kvs)).1 ∧
      (check_bedrock_agent_config (.map kvs)).2 = Except.ok true := by
  have ht := truthy_of_assoc h
  unfold check_bedrock_agent_config
  cases hin : assoc pm "Instruction" with
  | none =>
    simp [ht, pyContains, h, pyGetItem, hag, pyGet, hpr, hin, hpo, hpc, pyLen_list]
  | some v =>
    simp only [instrLenOk, lenOkIfPresent, hin] at hins
    cases hl : pyLen v with
    | error e => rw [hl] at hins; simp [Except.isOk, Except.toBool] at hins
    | ok n =>
      simp [ht, pyContains, h, pyGetItem, hag, pyGet, hpr, hin, hl, hpo, hpc, pyLen_list]

/-- With no prompt-override block, the method still returns True and the
report contains the absence warning only. -/
theorem check_bedrock_poc_absent {kvs rs am pm : List (String × Yaml)}
    (h : assoc kvs "Resources" = some (.map rs))
    (hag : assoc rs "BedrockAgent" = some (.map am))
    (hpr : (assoc am "Properties").getD (.map []) = .map pm)
    (hins : instrLenOk pm = true)
    (hpo : assoc pm "PromptOverrideConfiguration" = none) :
    "⚠️  No Prompt Override Configuration" ∈ (check_bedrock_agent_config (.map kvs)).1 ∧
      (check_bedrock_agent_config (.map kvs)).2 = Except.ok true := by
  have ht := truthy_of_assoc h
  unfold check_bedrock_agent_config
  cases hin : assoc pm "Instruction" with
  | none =>
    simp [ht, pyContains, h, pyGetItem, hag, pyGet, hpr, hin, hpo]
  | some v =>
    simp only [instrLenOk, lenOkIfPresent, hin] at hins
    cases hl : pyLen v with
    | error e => rw [hl] at hins; simp [Except.isOk, Except.toBool] at hins
    | ok n =>
      simp [ht, pyContains, h, pyGetItem, hag, pyGet, hpr, hin, hl, hpo]

/-- The outputs loop never raises on a mapping. -/
theorem checkOutputItems_result (os : List (String × Yaml)) (names : List String) :
    (checkOutputItems (.map os) names).2 = .ok () := by
  induction names with
  | nil => rfl
  | cons o rest ih =>
    unfold checkOutputItems
    cases hv : (assoc os o).isSome <;> simp [pyContains, hv, ih]

/-- With an `Outputs` mapping, `check_outputs` returns True. -/
theorem check_outputs_ok {kvs os : List (String × Yaml)}
    (h : assoc kvs "Outputs" = some (.map os)) :
    (check_outputs (.map kvs)).2 = Except.ok true := by
  have ht := truthy_of_assoc h
  unfold check_outputs
  simp [ht, pyContains, h, pyGetItem, checkOutputItems_result os expected_outputs]

/-- Without an `Outputs` key (or on a falsy document), `check_outputs`
prints the absence message and returns False. -/
theorem check_outputs_no_key {t : Yaml} (hm : mapOrFalsy t = true)
    (hk : hasKey t "Outputs" = false) :
    check_outputs t = (["❌ No Outputs section found in template"], Except.ok false) := by
  cases t <;>
    simp_all [mapOrFalsy, hasKey, Yaml.isMap, truthy, check_outputs, pyContains]

/-- A section count in the summary never raises when the section value
supports `len()`. -/
theorem summaryCount_ok {kvs : List (String × Yaml)} (name : String)
    (h : lenOkIfPresent kvs name = true) :
    (summaryCount (.map kvs) name).2 = .ok () := by
  unfold summaryCount
  cases hv : assoc kvs name with
  | none => simp [pyContains, hv]
  | some v =>
    simp only [lenOkIfPresent, hv] at h
    cases hl : pyLen v with
    | error e => rw [hl] at h; simp [Except.isOk, Except.toBool] at h
    | ok n => simp [pyContains, hv, pyGetItem, hl]

/-- Method `generate_summary` returns normally on every summary-safe document. -/
theorem generate_summary_ok {t : Yaml} (hs : summaryOk t = true) :
    (generate_summary t).2 = .ok () := by
  rw [summaryOk, Bool.and_eq_true] at hs
  obtain ⟨hm, hl⟩ := hs
  cases t with
  | map kvs =>
    simp only [summaryLensOk, Bool.and_eq_true] at hl
    obtain ⟨⟨l1, l2⟩, l3⟩ := hl
    unfold generate_summary
    cases htr : truthy (.map kvs) with
    | false => simp [htr]
    | true =>
      simp [htr, pyGet, summaryCount_ok "Parameters" l1, summaryCount_ok "Resources" l2,
        summaryCount_ok "Outputs" l3]
  | null => rfl
  | bool b => simp_all [mapOrFalsy, Yaml.isMap, truthy, generate_summary]
  | int n => simp_all [mapOrFalsy, Yaml.isMap, truthy, generate_summary]
  | str s => simp_all [mapOrFalsy, Yaml.isMap, truthy, generate_summary]
  | list xs => simp_all [mapOrFalsy, Yaml.isMap, truthy, generate_summary]

/-- The loop counts at most one pass per step. -/
theorem runChecksLoop_le (steps : List (String × (List String × Except String Bool))) :
    (runChecksLoop steps).2 ≤ steps.length := by
  induction steps with
  | nil => simp [runChecksLoop]
  | cons p rest ih =>
    obtain ⟨name, r⟩ := p
    unfold runChecksLoop
    cases hr : r.2 with
    | ok b => cases b <;> simp [hr] <;> omega
    | error e => simp [hr]; omega

/-- Whatever any step does, every line a step prints appears in the loop's
output: no step can prevent another from running. -/
theorem runChecksLoop_mem_out {steps : List (String × (List String × Except String Bool))}
    {name : String} {r : List String × Except String Bool} (h : (name, r) ∈ steps)
    {l : String} (hl : l ∈ r.1) : l ∈ (runChecksLoop steps).1 := by
  induction steps with
  | nil => simp at h
  | cons p rest ih =>
    unfold runChecksLoop
    rcases List.mem_cons.mp h with heq | hmem
    · subst heq
      cases hr : r.2 <;> simp [hr, List.mem_append, hl]
    · obtain ⟨n2, r2⟩ := p
      cases hr : r2.2 <;> simp [hr, List.mem_append, ih hmem]

/-- A raising step is reported by name in the loop's output. -/
theorem runChecksLoop_error_line {steps : List (String × (List String × Except String Bool))}
    {name : String} {r : List String × Except String Bool} (h : (name, r) ∈ steps)
    {e : String} (he : r.2 = .error e) :
    s!"❌ Error in {name}: {e}" ∈ (runChecksLoop steps).1 := by
  induction steps with
  | nil => simp at h
  | cons p rest ih =>
    unfold runChecksLoop
    rcases List.mem_cons.mp h with heq | hmem
    · subst heq
      simp [he, List.mem_append]
    · obtain ⟨n2, r2⟩ := p
      cases hr : r2.2 <;> simp [hr, List.mem_append, ih hmem]

/-- A raising step contributes no pass to the tally. -/
theorem runChecksLoop_error_not_counted {name : String}
    {r : List String × Except String Bool} {e : String} (he : r.2 = .error e)
    (rest : List (String × (List String × Except String Bool))) :
    (runChecksLoop ((name, r) :: rest)).2 = (runChecksLoop rest).2 := by
  conv_lhs => rw [runChecksLoop]
  simp [he]

/-- A fresh tester's load step stores exactly `templateOf ext`. -/
theorem load_init_template (ext : Except String Yaml) :
    (load_template_op ext (AgentConfigTester.init default_template_file)).1.template
      = templateOf ext := by
  cases ext <;> rfl

/-- Every line the loop prints survives into the output of
`run_all_checks` (also when the final summary raises). -/
theorem run_all_checks_mem_of_loop {ext : Except String Yaml} {l : String}
    (hl : l ∈ (runChecksLoop (runAllSteps ext)).1) : l ∈ (run_all_checks ext).1 := by
  unfold runAllSteps at hl
  cases ext with
  | ok doc =>
    unfold run_all_checks run_all_checks_op check_parameters_op check_resources_op
      check_bedrock_agent_config_op check_outputs_op generate_summary_op
    simp only [templateOf] at hl
    simp only [load_template_op, AgentConfigTester.init] at hl ⊢
    split <;> simp_all [List.mem_append]
  | error e =>
    unfold run_all_checks run_all_checks_op check_parameters_op check_resources_op
      check_bedrock_agent_config_op check_outputs_op generate_summary_op
    simp only [templateOf] at hl
    simp only [load_template_op, AgentConfigTester.init] at hl ⊢
    split <;> simp_all [List.mem_append]

/-- When the summary returns normally, `run_all_checks` returns whether the
tally reached 5 and prints the `passed/5` line. -/
theorem run_all_checks_result {ext : Except String Yaml}
    (hs : (generate_summary (templateOf ext)).2 = .ok ()) :
    (run_all_checks ext).2 = .ok ((runChecksLoop (runAllSteps ext)).2 == 5) ∧
      s!"\n✅ Validation complete: {(runChecksLoop (runAllSteps ext)).2}/5 checks passed"
        ∈ (run_all_checks ext).1 := by
  unfold runAllSteps
  cases ext with
  | ok doc =>
    simp only [templateOf] at hs ⊢
    unfold run_all_checks run_all_checks_op check_parameters_op check_resources_op
      check_bedrock_agent_config_op check_outputs_op generate_summary_op
    simp only [load_template_op, AgentConfigTester.init] at hs ⊢
    simp [hs, List.mem_append]
  | error e =>
    simp only [templateOf] at hs ⊢
    unfold run_all_checks run_all_checks_op check_parameters_op check_resources_op
      check_bedrock_agent_config_op check_outputs_op generate_summary_op
    simp only [load_template_op, AgentConfigTester.init] at hs ⊢
    simp [hs, List.mem_append]

/-- Method `run_all_checks` only writes the state through its load step. -/
theorem check_parameters_falsy {t : Yaml} (hf : truthy t = false) :
    check_parameters t = (["❌ No Parameters section found in template"], Except.ok false) := by
  unfold check_parameters
  rw [hf]
  simp

theorem check_resources_falsy {t : Yaml} (hf : truthy t = false) :
    check_resources t = (["❌ No Resources section found in template"], Except.ok false) := by
  unfold check_resources
  rw [hf]
  simp

theorem check_bedrock_falsy {t : Yaml} (hf : truthy t = false) :
    check_bedrock_agent_config t = ([], Except.ok false) := by
  unfold check_bedrock_agent_config
  rw [hf]
  simp

theorem check_outputs_falsy {t : Yaml} (hf : truthy t = false) :
    check_outputs t = (["❌ No Outputs section found in template"], Except.ok false) := by
  unfold check_outputs
  rw [hf]
  simp

theorem run_all_checks_op_state (ext : Except String Yaml) (s : AgentConfigTester) :
    (run_all_checks_op ext s).1 = (load_template_op ext s).1 := by
  unfold run_all_checks_op generate_summary_op
  cases hs : (generate_summary (load_template_op ext s).1.template).2 <;> simp [hs]

/-- Re-loading leaves the stored document as the first load left it. -/
theorem load_template_op_stable (ext : Except String Yaml) (s : AgentConfigTester) :
    (load_template_op ext (load_template_op ext s).1).1.template
      = (load_template_op ext s).1.template := by
  cases ext <;> rfl

/-! ### Claim theorems -/

/-- C9: a file parsing to a falsy document (empty file → null, empty
mapping, ...) loads successfully, yet `check_parameters`,
`check_resources`, `check_bedrock_agent_config` and `check_outputs` all
return failure, each behaving exactly as on an unloaded (None) document. -/
theorem C9_falsy_document (t : Yaml) (hf : truthy t = false) :
    (load_template_op (.ok t) (AgentConfigTester.init default_template_file)).2.2 = true ∧
    (check_parameters t).2 = Except.ok false ∧
    (check_resources t).2 = Except.ok false ∧
    (check_bedrock_agent_config t).2 = Except.ok false ∧
    (check_outputs t).2 = Except.ok false ∧
    check_parameters t = check_parameters .null ∧
    check_resources t = check_resources .null ∧
    check_bedrock_agent_config t = check_bedrock_agent_config .null ∧
    check_outputs t = check_outputs .null := by
  refine ⟨rfl, ?_, ?_, ?_, ?_, ?_, ?_, ?_, ?_⟩
  · rw [check_parameters_falsy hf]
  · rw [check_resources_falsy hf]
  · rw [check_bedrock_falsy hf]
  · rw [check_outputs_falsy hf]
  · rw [check_parameters_falsy hf, check_parameters_falsy (rfl : truthy .null = false)]
  · rw [check_resources_falsy hf, check_resources_falsy (rfl : truthy .null = false)]
  · rw [check_bedrock_falsy hf, check_bedrock_falsy (rfl : truthy .null = false)]
  · rw [check_outputs_falsy hf, check_outputs_falsy (rfl : truthy .null = false)]

/-- C9 witness: the empty mapping document. -/
theorem C9_falsy_document_witness :
    (check_parameters (.map [])).2 = Except.ok false ∧
      check_outputs (.map []) = check_outputs .null :=
  ⟨(C9_falsy_document (.map []) rfl).2.1, (C9_falsy_document (.map []) rfl).2.2.2.2.2.2.2.2⟩

/-- C10: after the load step stores the document, every operation of the
class leaves it unchanged — the check methods, the summary and the syntax
validation return the state as-is, and a re-run of `run_all_checks` (which
re-loads the same file) ends with the same stored document. -/
theorem C10_template_read_only (ext : Except String Yaml) (s : AgentConfigTester) :
    (check_parameters_op (load_template_op ext s).1).1 = (load_template_op ext s).1 ∧
    (check_resources_op (load_template_op ext s).1).1 = (load_template_op ext s).1 ∧
    (check_bedrock_agent_config_op (load_template_op ext s).1).1 = (load_template_op ext s).1 ∧
    (check_outputs_op (load_template_op ext s).1).1 = (load_template_op ext s).1 ∧
    (generate_summary_op (load_template_op ext s).1).1 = (load_template_op ext s).1 ∧
    (∀ ev : Except String Unit,
      (validate_template_syntax_op ev (load_template_op ext s).1).1
        = (load_template_op ext s).1) ∧
    (run_all_checks_op ext (load_template_op ext s).1).1.template
      = (load_template_op ext s).1.template := by
  refine ⟨rfl, rfl, rfl, rfl, rfl, fun _ => rfl, ?_⟩
  rw [run_all_checks_op_state]
  exact load_template_op_stable ext s

/-- C2: on a loaded document (top level a mapping, or falsy),
`check_parameters` returns failure iff the top-level `Parameters` key is
absent; it returns success whenever the `Parameters` mapping exists with
well-shaped declared required parameters — in particular when that mapping
is empty, in which case it reports each of the three required parameters
as missing (type and allowed-value mismatches never change the return
value, as the success case places no constraint on the declared types or
values). -/
theorem C2_check_parameters_section_presence (t : Yaml) (hm : mapOrFalsy t = true) :
    ((check_parameters t).2 = Except.ok false ↔ hasKey t "Parameters" = false) ∧
    (∀ ps : List (String × Yaml), lookupSection t "Parameters" = some (.map ps) →
      paramEntriesOk ps = true → (check_parameters t).2 = Except.ok true) ∧
    (lookupSection t "Parameters" = some (.map []) →
      check_parameters t =
        (["\n🔍 Checking Parameters:", "❌ Missing parameter: AgentName",
          "❌ Missing parameter: FoundationModel", "❌ Missing parameter: Environment"],
         Except.ok true)) := by
  refine ⟨⟨fun hres => ?_, fun hk => ?_⟩, fun ps hsec hp => ?_, fun hsec => ?_⟩
  · by_contra hk
    rw [Bool.not_eq_false] at hk
    cases t with
    | map kvs =>
      simp only [hasKey, Option.isSome_iff_exists] at hk
      obtain ⟨v, hv⟩ := hk
      exact check_parameters_ne_false hv hres
    | null => simp [hasKey] at hk
    | bool b => simp [hasKey] at hk
    | int n => simp [hasKey] at hk
    | str s => simp [hasKey] at hk
    | list xs => simp [hasKey] at hk
  · rw [check_parameters_no_key hm hk]
  · cases t with
    | map kvs => exact check_parameters_ok hsec hp
    | null => simp [lookupSection] at hsec
    | bool b => simp [lookupSection] at hsec
    | int n => simp [lookupSection] at hsec
    | str s => simp [lookupSection] at hsec
    | list xs => simp [lookupSection] at hsec
  · cases t with
    | map kvs =>
      simp only [lookupSection] at hsec
      have ht := truthy_of_assoc hsec
      unfold check_parameters
      rw [ht]
      simp [pyContains, hsec, pyGetItem, checkOneParam, assoc]
      exact ⟨rfl, rfl, rfl⟩
    | null => simp [lookupSection] at hsec
    | bool b => simp [lookupSection] at hsec
    | int n => simp [lookupSection] at hsec
    | str s => simp [lookupSection] at hsec
    | list xs => simp [lookupSection] at hsec

/-- C2 witness: a document with a mistyped `AgentName` still passes; the
empty `Parameters` mapping passes while reporting all three required
parameters missing; a document without `Parameters` fails. -/
theorem C2_check_parameters_section_presence_witness :
    (check_parameters
        (.map [("Parameters", .map [("AgentName", .map [("Type", .str "Number")])])])).2
      = Except.ok true ∧
    check_parameters (.map [("Parameters", .map [])]) =
      (["\n🔍 Checking Parameters:", "❌ Missing parameter: AgentName",
        "❌ Missing parameter: FoundationModel", "❌ Missing parameter: Environment"],
       Except.ok true) ∧
    (check_parameters (.map [("Foo", .int 1)])).2 = Except.ok false :=
  ⟨(C2_check_parameters_section_presence
      (.map [("Parameters", .map [("AgentName", .map [("Type", .str "Number")])])])
      rfl).2.1 _ rfl rfl,
   (C2_check_parameters_section_presence (.map [("Parameters", .map [])]) rfl).2.2 rfl,
   ((C2_check_parameters_section_presence (.map [("Foo", .int 1)]) rfl).1).mpr rfl⟩

/-- C3 counterexample: on a document with no `Resources` key,
`check_bedrock_agent_config` returns failure but prints nothing — it does
not "report failure" as the claim states (contrast `check_resources`,
which prints its absence message). -/
theorem C3_counterexample_silent_bedrock_failure :
    check_bedrock_agent_config (.map [("Outputs", .map [("AgentId", .map [])])])
        = ([], Except.ok false) ∧
      check_resources (.map [("Outputs", .map [("AgentId", .map [])])])
        = (["❌ No Resources section found in template"], Except.ok false) :=
  ⟨rfl, rfl⟩

/-- C3 (amended): on documents missing the `Resources` key both steps
return failure, but only `check_resources` reports it —
`check_bedrock_agent_config` returns failure silently; the latter reports
and fails when `Resources` exists without a `BedrockAgent` entry, and
returns success whenever a well-shaped `BedrockAgent` entry exists. -/
theorem C3_resources_gating (t : Yaml) (hm : mapOrFalsy t = true) :
    (hasKey t "Resources" = false →
      check_resources t = (["❌ No Resources section found in template"], Except.ok false) ∧
      check_bedrock_agent_config t = ([], Except.ok false)) ∧
    (∀ rs : List (String × Yaml), lookupSection t "Resources" = some (.map rs) →
      assoc rs "BedrockAgent" = none →
      check_bedrock_agent_config t = (["❌ BedrockAgent resource not found"], Except.ok false)) ∧
    (∀ rs : List (String × Yaml), lookupSection t "Resources" = some (.map rs) →
      bedrockAgentOk rs = true →
      (check_bedrock_agent_config t).2 = Except.ok true) := by
  refine ⟨fun hk => ⟨check_resources_no_key hm hk, check_bedrock_no_resources hm hk⟩,
    fun rs hsec ha => ?_, fun rs hsec hb => ?_⟩
  · cases t with
    | map kvs => exact check_bedrock_no_agent hsec ha
    | null => simp [lookupSection] at hsec
    | bool b => simp [lookupSection] at hsec
    | int n => simp [lookupSection] at hsec
    | str s => simp [lookupSection] at hsec
    | list xs => simp [lookupSection] at hsec
  · cases t with
    | map kvs => exact check_bedrock_ok hsec hb
    | null => simp [lookupSection] at hsec
    | bool b => simp [lookupSection] at hsec
    | int n => simp [lookupSection] at hsec
    | str s => simp [lookupSection] at hsec
    | list xs => simp [lookupSection] at hsec

/-- C3 witness: missing section, missing entry, and present entry, each on
a concrete document. -/
theorem C3_resources_gating_witness :
    check_bedrock_agent_config (.map [("Foo", .int 1)]) = ([], Except.ok false) ∧
    check_bedrock_agent_config (.map [("Resources", .map [("BedrockAgentRole", .map [])])])
      = (["❌ BedrockAgent resource not found"], Except.ok false) ∧
    (check_bedrock_agent_config (.map [("Resources", .map [("BedrockAgent", .map [])])])).2
      = Except.ok true :=
  ⟨((C3_resources_gating (.map [("Foo", .int 1)]) rfl).1 rfl).2,
   (C3_resources_gating (.map [("Resources", .map [("BedrockAgentRole", .map [])])])
      rfl).2.1 _ rfl rfl,
   (C3_resources_gating (.map [("Resources", .map [("BedrockAgent", .map [])])])
      rfl).2.2 _ rfl rfl⟩

/-- C8: on a loaded document (top level a mapping, or falsy) whose declared
expected resources are well-shaped, `check_resources` returns success iff
the `Resources` mapping exists — individually missing expected resources
never change the return value; likewise `check_outputs` returns success
iff the `Outputs` mapping exists. -/
theorem C8_section_presence_decides_result (t : Yaml) (hm : mapOrFalsy t = true) :
    (resourceEntriesOk t = true →
      ((check_resources t).2 = Except.ok true ↔ hasKey t "Resources" = true)) ∧
    (outputsValueOk t = true →
      ((check_outputs t).2 = Except.ok true ↔ hasKey t "Outputs" = true)) := by
  constructor
  · intro hr
    constructor
    · intro hres
      by_contra hk
      rw [Bool.not_eq_true] at hk
      rw [check_resources_no_key hm hk] at hres
      simp at hres
    · intro hk
      cases t with
      | map kvs =>
        simp only [hasKey, Option.isSome_iff_exists] at hk
        obtain ⟨v, hv⟩ := hk
        cases v with
        | map rs =>
          simp only [resourceEntriesOk, hv] at hr
          exact check_resources_ok hv hr
        | null => simp [resourceEntriesOk, hv] at hr
        | bool b => simp [resourceEntriesOk, hv] at hr
        | int n => simp [resourceEntriesOk, hv] at hr
        | str s => simp [resourceEntriesOk, hv] at hr
        | list xs => simp [resourceEntriesOk, hv] at hr
      | null => simp [hasKey] at hk
      | bool b => simp [hasKey] at hk
      | int n => simp [hasKey] at hk
      | str s => simp [hasKey] at hk
      | list xs => simp [hasKey] at hk
  · intro ho
    constructor
    · intro hres
      by_contra hk
      rw [Bool.not_eq_true] at hk
      rw [check_outputs_no_key hm hk] at hres
      simp at hres
    · intro hk
      cases t with
      | map kvs =>
        simp only [hasKey, Option.isSome_iff_exists] at hk
        obtain ⟨v, hv⟩ := hk
        cases v with
        | map os => exact check_outputs_ok hv
        | null => simp [outputsValueOk, hv] at ho
        | bool b => simp [outputsValueOk, hv] at ho
        | int n => simp [outputsValueOk, hv] at ho
        | str s => simp [outputsValueOk, hv] at ho
        | list xs => simp [outputsValueOk, hv] at ho
      | null => simp [hasKey] at hk
      | bool b => simp [hasKey] at hk
      | int n => simp [hasKey] at hk
      | str s => simp [hasKey] at hk
      | list xs => simp [hasKey] at hk

/-- C8 witness: a `Resources` mapping with one expected resource missing
among the declared ones still passes; an `Outputs` mapping missing some
expected outputs still passes; a document without the section fails. -/
theorem C8_section_presence_decides_result_witness :
    (check_resources (.map [("Resources", .map [("BedrockAgentRole", .map [])])])).2
        = Except.ok true ∧
    (check_outputs (.map [("Outputs", .map [("AgentId", .map [])])])).2 = Except.ok true ∧
    ¬ (check_resources (.map [("Foo", .int 1)])).2 = Except.ok true :=
  ⟨((C8_section_presence_decides_result
      (.map [("Resources", .map [("BedrockAgentRole", .map [])])]) rfl).1 rfl).mpr rfl,
   ((C8_section_presence_decides_result
      (.map [("Outputs", .map [("AgentId", .map [])])]) rfl).2 rfl).mpr rfl,
   fun h => by
     have := ((C8_section_presence_decides_result (.map [("Foo", .int 1)]) rfl).1 rfl).mp h
     simp [hasKey, assoc] at this⟩

/-- C6: given the agent resource, when its property bag has no
`Instruction` key the report labels the instruction missing, and when the
instruction is a string of length `L` the report states exactly `L`
characters. -/
theorem C6_instruction_report (kvs rs am pm : List (String × Yaml))
    (h : assoc kvs "Resources" = some (.map rs))
    (hag : assoc rs "BedrockAgent" = some (.map am))
    (hpr : (assoc am "Properties").getD (.map []) = .map pm) :
    (assoc pm "Instruction" = none →
      "❌ Missing Agent Instruction" ∈ (check_bedrock_agent_config (.map kvs)).1) ∧
    (∀ s : String, assoc pm "Instruction" = some (.str s) →
      s!"✅ Agent Instruction: {s.length} characters"
        ∈ (check_bedrock_agent_config (.map kvs)).1) :=
  ⟨fun hin => check_bedrock_instr_missing h hag hpr hin,
   fun _ hin => check_bedrock_instr_len h hag hpr hin⟩

/-- C6 witness: the two report forms on concrete documents ("hello" has 5
characters). -/
theorem C6_instruction_report_witness :
    "❌ Missing Agent Instruction" ∈
      (check_bedrock_agent_config
        (.map [("Resources", .map [("BedrockAgent", .map [("Properties", .map [])])])])).1 ∧
    "✅ Agent Instruction: 5 characters" ∈
      (check_bedrock_agent_config
        (.map [("Resources", .map [("BedrockAgent",
          .map [("Properties", .map [("Instruction", .str "hello")])])])])).1 :=
  ⟨(C6_instruction_report
      [("Resources", .map [("BedrockAgent", .map [("Properties", .map [])])])]
      [("BedrockAgent", .map [("Properties", .map [])])]
      [("Properties", .map [])] [] rfl rfl rfl).1 rfl,
   (C6_instruction_report
      [("Resources", .map [("BedrockAgent",
        .map [("Properties", .map [("Instruction", .str "hello")])])])]
      [("BedrockAgent", .map [("Properties", .map [("Instruction", .str "hello")])])]
      [("Properties", .map [("Instruction", .str "hello")])]
      [("Instruction", .str "hello")] rfl rfl rfl).2 "hello" rfl⟩

/-- C7: given the agent resource with a property bag whose instruction (if
any) supports `len()`, a present prompt-override block with a
prompt-configuration list of length `K` makes the report state exactly `K`
configurations found (and the step succeeds); an absent block leaves the
step successful with only the absence warning. -/
theorem C7_prompt_override_report (kvs rs am pm : List (String × Yaml))
    (h : assoc kvs "Resources" = some (.map rs))
    (hag : assoc rs "BedrockAgent" = some (.map am))
    (hpr : (assoc am "Properties").getD (.map []) = .map pm)
    (hins : instrLenOk pm = true) :
    (∀ (pc : List (String × Yaml)) (ks : List Yaml),
      assoc pm "PromptOverrideConfiguration" = some (.map pc) →
      assoc pc "PromptConfigurations" = some (.list ks) →
      s!"   📝 {ks.length} prompt configurations found"
          ∈ (check_bedrock_agent_config (.map kvs)).1 ∧
        (check_bedrock_agent_config (.map kvs)).2 = Except.ok true) ∧
    (assoc pm "PromptOverrideConfiguration" = none →
      (check_bedrock_agent_config (.map kvs)).2 = Except.ok true ∧
        "⚠️  No Prompt Override Configuration" ∈ (check_bedrock_agent_config (.map kvs)).1) :=
  ⟨fun _ _ hpo hpc => check_bedrock_poc_count h hag hpr hins hpo hpc,
   fun hpo => ⟨(check_bedrock_poc_absent h hag hpr hins hpo).2,
               (check_bedrock_poc_absent h hag hpr hins hpo).1⟩⟩

/-- C7 witness: a two-entry prompt-configuration list is reported as 2
found; with no override block the step passes with the warning. -/
theorem C7_prompt_override_report_witness :
    "   📝 2 prompt configurations found" ∈
      (check_bedrock_agent_config
        (.map [("Resources", .map [("BedrockAgent", .map [("Properties", .map [
          ("PromptOverrideConfiguration", .map [
            ("PromptConfigurations", .list [.map [], .map []])])])])])])).1 ∧
    ((check_bedrock_agent_config
        (.map [("Resources", .map [("BedrockAgent", .map [("Properties", .map [])])])])).2
        = Except.ok true ∧
      "⚠️  No Prompt Override Configuration" ∈
        (check_bedrock_agent_config
          (.map [("Resources", .map [("BedrockAgent", .map [("Properties", .map [])])])])).1) :=
  ⟨((C7_prompt_override_report
      [("Resources", .map [("BedrockAgent", .map [("Properties", .map [
        ("PromptOverrideConfiguration", .map [
          ("PromptConfigurations", .list [.map [], .map []])])])])])]
      [("BedrockAgent", .map [("Properties", .map [
        ("PromptOverrideConfiguration", .map [
          ("PromptConfigurations", .list [.map [], .map []])])])])]
      [("Properties", .map [
        ("PromptOverrideConfiguration", .map [
          ("PromptConfigurations", .list [.map [], .map []])])])]
      [("PromptOverrideConfiguration", .map [
        ("PromptConfigurations", .list [.map [], .map []])])]
      rfl rfl rfl rfl).1
      [("PromptConfigurations", .list [.map [], .map []])]
      [.map [], .map []] rfl rfl).1,
   (C7_prompt_override_report
      [("Resources", .map [("BedrockAgent", .map [("Properties", .map [])])])]
      [("BedrockAgent", .map [("Properties", .map [])])]
      [("Properties", .map [])] [] rfl rfl rfl rfl).2 rfl⟩

theorem runAllSteps_length (ext : Except String Yaml) : (runAllSteps ext).length = 5 := by
  cases ext <;> rfl

/-- A raising step contributes zero to the pass tally. -/
theorem stepPassCount_error {r : List String × Except String Bool} {e : String}
    (he : r.2 = Except.error e) : stepPassCount r = 0 := by
  simp [stepPassCount, he]

/-- A step returning False contributes zero to the pass tally. -/
theorem stepPassCount_false {r : List String × Except String Bool}
    (hf : r.2 = Except.ok false) : stepPassCount r = 0 := by
  simp [stepPassCount, hf]

/-- The loop's tally is exactly the sum of the steps' contributions. -/
theorem runChecksLoop_count_eq (steps : List (String × (List String × Except String Bool))) :
    (runChecksLoop steps).2 = (steps.map (fun p => stepPassCount p.2)).sum := by
  induction steps with
  | nil => rfl
  | cons p rest ih =>
    obtain ⟨name, r⟩ := p
    unfold runChecksLoop
    cases hr : r.2 with
    | ok b => cases b <;> simp [stepPassCount, hr, ih]
    | error e => simp [stepPassCount, hr, ih]

/-- The tally of a whole run is `passCount`: load passes iff the read
effect succeeded, and each check contributes 1 only when it returned
True — a raising or failing step is counted as not-passed. -/
theorem runAllSteps_tally (ext : Except String Yaml) :
    (runChecksLoop (runAllSteps ext)).2 = passCount ext := by
  rw [runChecksLoop_count_eq]
  cases ext with
  | ok doc =>
    simp [runAllSteps, passCount, load_template_op, AgentConfigTester.init, templateOf]
    cases h1 : (check_parameters doc).2 <;>
      cases h2 : (check_resources doc).2 <;>
        cases h3 : (check_bedrock_agent_config doc).2 <;>
          cases h4 : (check_outputs doc).2 <;>
            simp [stepPassCount, h1, h2, h3, h4] <;> ring
  | error e =>
    simp [runAllSteps, passCount, load_template_op, AgentConfigTester.init, templateOf]
    cases h1 : (check_parameters .null).2 <;>
      cases h2 : (check_resources .null).2 <;>
        cases h3 : (check_bedrock_agent_config .null).2 <;>
          cases h4 : (check_outputs .null).2 <;>
            simp [stepPassCount, h1, h2, h3, h4] <;> ring

/-- C4 counterexample: a file parsing to the list `["a"]` (truthy, not a
mapping) makes `generate_summary` — called outside any try/except — raise
an AttributeError that escapes `run_all_checks`: the run terminates with
an uncaught exception and never prints the "Validation complete" summary
line, refuting "for every input, the run always completes with a
summary". -/
theorem C4_counterexample_summary_crash :
    run_all_checks (Except.ok (Yaml.list [Yaml.str "a"])) =
      (["🚀 Starting AWS Bedrock Agent Template Validation",
        String.mk (List.replicate 60 '='),
        "✅ Template loaded successfully: bedrock-agent-template.yaml",
        "❌ No Parameters section found in template",
        "❌ No Resources section found in template",
        "❌ No Outputs section found in template",
        "\n📊 Template Summary:",
        String.mk (List.replicate 50 '=')],
       Except.error "AttributeError") := by
  rfl

/-- C4 (amended): every exception raised by one of the five steps is
caught, reported by step name, counted as not-passed (a raising step
contributes zero to the tally, which is exactly the number of steps that
returned True), and every step's printed lines still reach the output (no
step can abort another); the run completes with the `passed/5` summary
whenever `generate_summary` itself does not raise — but an exception in
`generate_summary` (e.g. on a truthy non-mapping document) is uncaught
and terminates the run. -/
theorem C4_step_isolation (ext : Except String Yaml) :
    ((generate_summary (templateOf ext)).2 = Except.ok () →
      passCount ext ≤ 5 ∧
      (run_all_checks ext).2 = Except.ok (passCount ext == 5) ∧
      s!"\n✅ Validation complete: {passCount ext}/5 checks passed"
        ∈ (run_all_checks ext).1) ∧
    (∀ e, (check_parameters (templateOf ext)).2 = Except.error e →
      s!"❌ Error in check_parameters: {e}" ∈ (run_all_checks ext).1 ∧
      stepPassCount (check_parameters (templateOf ext)) = 0) ∧
    (∀ e, (check_resources (templateOf ext)).2 = Except.error e →
      s!"❌ Error in check_resources: {e}" ∈ (run_all_checks ext).1 ∧
      stepPassCount (check_resources (templateOf ext)) = 0) ∧
    (∀ e, (check_bedrock_agent_config (templateOf ext)).2 = Except.error e →
      s!"❌ Error in check_bedrock_agent_config: {e}" ∈ (run_all_checks ext).1 ∧
      stepPassCount (check_bedrock_agent_config (templateOf ext)) = 0) ∧
    (∀ e, (check_outputs (templateOf ext)).2 = Except.error e →
      s!"❌ Error in check_outputs: {e}" ∈ (run_all_checks ext).1 ∧
      stepPassCount (check_outputs (templateOf ext)) = 0) ∧
    (∀ l, l ∈ (check_parameters (templateOf ext)).1 → l ∈ (run_all_checks ext).1) ∧
    (∀ l, l ∈ (check_resources (templateOf ext)).1 → l ∈ (run_all_checks ext).1) ∧
    (∀ l, l ∈ (check_bedrock_agent_config (templateOf ext)).1 → l ∈ (run_all_checks ext).1) ∧
    (∀ l, l ∈ (check_outputs (templateOf ext)).1 → l ∈ (run_all_checks ext).1) := by
  refine ⟨fun hs => ⟨?_, ?_, ?_⟩,
    fun e he => ⟨?_, stepPassCount_error he⟩, fun e he => ⟨?_, stepPassCount_error he⟩,
    fun e he => ⟨?_, stepPassCount_error he⟩, fun e he => ⟨?_, stepPassCount_error he⟩,
    fun l hl => ?_, fun l hl => ?_, fun l hl => ?_, fun l hl => ?_⟩
  · have h := runChecksLoop_le (runAllSteps ext)
    rwa [runAllSteps_length, runAllSteps_tally] at h
  · have h := (run_all_checks_result hs).1
    rwa [runAllSteps_tally] at h
  · have h := (run_all_checks_result hs).2
    rwa [runAllSteps_tally] at h
  · exact run_all_checks_mem_of_loop (@runChecksLoop_error_line (runAllSteps ext)
      "check_parameters" _ (by simp [runAllSteps]) e he)
  · exact run_all_checks_mem_of_loop (@runChecksLoop_error_line (runAllSteps ext)
      "check_resources" _ (by simp [runAllSteps]) e he)
  · exact run_all_checks_mem_of_loop (@runChecksLoop_error_line (runAllSteps ext)
      "check_bedrock_agent_config" _ (by simp [runAllSteps]) e he)
  · exact run_all_checks_mem_of_loop (@runChecksLoop_error_line (runAllSteps ext)
      "check_outputs" _ (by simp [runAllSteps]) e he)
  · exact run_all_checks_mem_of_loop (@runChecksLoop_mem_out (runAllSteps ext)
      "check_parameters" _ (by simp [runAllSteps]) l hl)
  · exact run_all_checks_mem_of_loop (@runChecksLoop_mem_out (runAllSteps ext)
      "check_resources" _ (by simp [runAllSteps]) l hl)
  · exact run_all_checks_mem_of_loop (@runChecksLoop_mem_out (runAllSteps ext)
      "check_bedrock_agent_config" _ (by simp [runAllSteps]) l hl)
  · exact run_all_checks_mem_of_loop (@runChecksLoop_mem_out (runAllSteps ext)
      "check_outputs" _ (by simp [runAllSteps]) l hl)

/-- C4 witness: with `Parameters.AgentName` bound to the integer 5,
`check_parameters` raises (AttributeError); the error is reported by step
name and counted as zero, `check_outputs`'s message still appears, and
the run completes with 1/5 and an overall-failure result. -/
theorem C4_step_isolation_witness :
    ("❌ Error in check_parameters: AttributeError" ∈
        (run_all_checks (Except.ok
          (Yaml.map [("Parameters", Yaml.map [("AgentName", Yaml.int 5)])]))).1 ∧
      stepPassCount (check_parameters (templateOf (Except.ok
        (Yaml.map [("Parameters", Yaml.map [("AgentName", Yaml.int 5)])])))) = 0) ∧
    "❌ No Outputs section found in template" ∈
      (run_all_checks (Except.ok
        (Yaml.map [("Parameters", Yaml.map [("AgentName", Yaml.int 5)])]))).1 ∧
    passCount (Except.ok (Yaml.map [("Parameters", Yaml.map [("AgentName", Yaml.int 5)])]))
        = 1 ∧
    (run_all_checks (Except.ok
        (Yaml.map [("Parameters", Yaml.map [("AgentName", Yaml.int 5)])]))).2
      = Except.ok false :=
  ⟨(C4_step_isolation
      (Except.ok (Yaml.map [("Parameters", Yaml.map [("AgentName", Yaml.int 5)])]))).2.1
      "AttributeError" rfl,
   (C4_step_isolation
      (Except.ok (Yaml.map [("Parameters", Yaml.map [("AgentName", Yaml.int 5)])]))).2.2.2.2.2.2.2.2
      "❌ No Outputs section found in template" (by decide),
   rfl,
   ((C4_step_isolation
      (Except.ok (Yaml.map [("Parameters", Yaml.map [("AgentName", Yaml.int 5)])]))).1
      rfl).2.1⟩

/-- C5 counterexample: when the external validation fails (e.g. missing
credentials), the failure is printed as `❌ Template validation error: …`
with no credentials hint — the "Make sure you have AWS credentials
configured" message of `main` is dead code, because
`validate_template_syntax` catches every exception and never raises. -/
theorem C5_counterexample_no_credentials_hint :
    "❌ Template validation error: NoCredentials"
        ∈ (main_run (Except.ok Yaml.null) (Except.error "NoCredentials")).1 ∧
      "   Make sure you have AWS credentials configured"
        ∉ (main_run (Except.ok Yaml.null) (Except.error "NoCredentials")).1 := by
  constructor
  · decide
  · decide

/-- C5 (amended): `validate_template_syntax` prints a confirmation on
success and, on any failure of the external call, catches it and prints
the validation-error message (without any credentials hint); it never
raises, and whenever the main run returns, the run's printed output and
pass tally are unchanged by the validation outcome, which is merely
appended after the run. -/
theorem C5_validate_isolated (extL : Except String Yaml) (extV : Except String Unit) :
    validate_template_syntax (Except.ok ())
        = (["✅ CloudFormation template syntax is valid"], true) ∧
    (∀ e : String, validate_template_syntax (Except.error e)
        = ([s!"❌ Template validation error: {e}"], false)) ∧
    (∀ b : Bool, (run_all_checks extL).2 = Except.ok b →
      (main_run extL extV).2 = Except.ok () ∧
      (main_run extL extV).1 =
        (run_all_checks extL).1 ++ ["\n🔍 Attempting AWS CloudFormation validation..."]
          ++ ( validate_template_syntax extV).1) := by
  refine ⟨rfl, fun e => rfl, fun b hb => ?_⟩
  unfold main_run
  rcases hr : run_all_checks extL with ⟨out, res⟩
  rw [hr] at hb
  simp only at hb
  subst hb
  simp [hr]

/-- C5 witness: a run on the empty document followed by a failing
validation call still returns normally, with the validation error
appended after the run's own output. -/
theorem C5_validate_isolated_witness :
    (main_run (Except.ok Yaml.null) (Except.error "boom")).2 = Except.ok () ∧
    (main_run (Except.ok Yaml.null) (Except.error "boom")).1 =
      (run_all_checks (Except.ok Yaml.null)).1
        ++ ["\n🔍 Attempting AWS CloudFormation validation..."]
        ++ ( validate_template_syntax (Except.error "boom")).1 :=
  (C5_validate_isolated (Except.ok Yaml.null) (Except.error "boom")).2.2 false rfl

theorem lenOkIfPresent_none {kvs : List (String × Yaml)} {k : String}
    (h : assoc kvs k = none) : lenOkIfPresent kvs k = true := by
  simp [lenOkIfPresent, h]

theorem lenOkIfPresent_map {kvs m : List (String × Yaml)} {k : String}
    (h : assoc kvs k = some (.map m)) : lenOkIfPresent kvs k = true := by
  simp [lenOkIfPresent, h, pyLen, Except.isOk, Except.toBool]

theorem hasKey_false_assoc_none {kvs : List (String × Yaml)} {k : String}
    (h : hasKey (.map kvs) k = false) : assoc kvs k = none := by
  cases hv : assoc kvs k with
  | none => rfl
  | some v => simp [hasKey, hv] at h

/-- When all five steps return True the tally is 5. -/
theorem runAllSteps_count_all_ok {t : Yaml}
    (h1 : (check_parameters t).2 = Except.ok true)
    (h2 : (check_resources t).2 = Except.ok true)
    (h3 : (check_bedrock_agent_config t).2 = Except.ok true)
    (h4 : (check_outputs t).2 = Except.ok true) :
    (runChecksLoop (runAllSteps (.ok t))).2 = 5 := by
  simp [runAllSteps, runChecksLoop, load_template_op, AgentConfigTester.init, templateOf,
    h1, h2, h3, h4]

/-- When only the load step passes the tally is 1. -/
theorem runAllSteps_count_load_only {t : Yaml}
    (h1 : (check_parameters t).2 = Except.ok false)
    (h2 : (check_resources t).2 = Except.ok false)
    (h3 : (check_bedrock_agent_config t).2 = Except.ok false)
    (h4 : (check_outputs t).2 = Except.ok false) :
    (runChecksLoop (runAllSteps (.ok t))).2 = 1 := by
  simp [runAllSteps, runChecksLoop, load_template_op, AgentConfigTester.init, templateOf,
    h1, h2, h3, h4]

/-- C1: on a document in which every expected section, resource and output
is present (and shaped as the template language prescribes), the run
returns overall success and reports 5/5; on a document that parses (to a
top-level mapping, or to a falsy value) but lacks the `Parameters`,
`Resources` and `Outputs` sections, the run returns overall failure and
reports 1/5 — only the load step passes. -/
theorem C1_run_all_tally (t : Yaml) :
    (goodTemplate t = true →
      (run_all_checks (.ok t)).2 = Except.ok true ∧
      "\n✅ Validation complete: 5/5 checks passed" ∈ (run_all_checks (.ok t)).1) ∧
    (mapOrFalsy t = true → hasKey t "Parameters" = false → hasKey t "Resources" = false →
      hasKey t "Outputs" = false →
      (run_all_checks (.ok t)).2 = Except.ok false ∧
      "\n✅ Validation complete: 1/5 checks passed" ∈ (run_all_checks (.ok t)).1) := by
  constructor
  · intro hg
    cases t with
    | map kvs =>
      simp only [goodTemplate, Bool.and_eq_true] at hg
      obtain ⟨⟨hps, hrs⟩, hos⟩ := hg
      rcases hp : assoc kvs "Parameters" with _ | v
      · simp [paramsSectionOk, hp] at hps
      cases v with
      | map ps =>
        simp only [paramsSectionOk, hp] at hps
        rcases hr : assoc kvs "Resources" with _ | w
        · simp [resourcesSectionOk, hr] at hrs
        cases w with
        | map rs =>
          simp only [resourcesSectionOk, hr, Bool.and_eq_true] at hrs
          obtain ⟨hall, hbed⟩ := hrs
          rcases ho : assoc kvs "Outputs" with _ | u
          · simp [outputsSectionOk, ho] at hos
          cases u with
          | map os =>
            have hall' : expected_resources.all (fun r => mapIfPresent rs r) = true := by
              rw [List.all_eq_true] at hall ⊢
              intro x hx
              have hx2 := hall x hx
              rw [Bool.and_eq_true] at hx2
              exact hx2.1
            have h1 := check_parameters_ok hp hps
            have h2 := check_resources_ok hr hall'
            have h3 := check_bedrock_ok hr hbed
            have h4 := check_outputs_ok ho
            have hsum : (generate_summary (templateOf (.ok (Yaml.map kvs)))).2
                = Except.ok () := by
              apply generate_summary_ok
              simp only [templateOf, summaryOk, summaryLensOk, Bool.and_eq_true]
              exact ⟨by simp [mapOrFalsy, Yaml.isMap],
                ⟨lenOkIfPresent_map hp, lenOkIfPresent_map hr⟩, lenOkIfPresent_map ho⟩
            have hres := run_all_checks_result hsum
            have hcount := runAllSteps_count_all_ok h1 h2 h3 h4
            rw [hcount] at hres
            exact ⟨hres.1, hres.2⟩
          | null => simp [outputsSectionOk, ho] at hos
          | bool b => simp [outputsSectionOk, ho] at hos
          | int n => simp [outputsSectionOk, ho] at hos
          | str s => simp [outputsSectionOk, ho] at hos
          | list xs => simp [outputsSectionOk, ho] at hos
        | null => simp [resourcesSectionOk, hr] at hrs
        | bool b => simp [resourcesSectionOk, hr] at hrs
        | int n => simp [resourcesSectionOk, hr] at hrs
        | str s => simp [resourcesSectionOk, hr] at hrs
        | list xs => simp [resourcesSectionOk, hr] at hrs
      | null => simp [paramsSectionOk, hp] at hps
      | bool b => simp [paramsSectionOk, hp] at hps
      | int n => simp [paramsSectionOk, hp] at hps
      | str s => simp [paramsSectionOk, hp] at hps
      | list xs => simp [paramsSectionOk, hp] at hps
    | null => simp [goodTemplate] at hg
    | bool b => simp [goodTemplate] at hg
    | int n => simp [goodTemplate] at hg
    | str s => simp [goodTemplate] at hg
    | list xs => simp [goodTemplate] at hg
  · intro hm hk1 hk2 hk3
    have h1 : (check_parameters t).2 = Except.ok false := by
      rw [check_parameters_no_key hm hk1]
    have h2 : (check_resources t).2 = Except.ok false := by
      rw [check_resources_no_key hm hk2]
    have h3 : (check_bedrock_agent_config t).2 = Except.ok false := by
      rw [check_bedrock_no_resources hm hk2]
    have h4 : (check_outputs t).2 = Except.ok false := by
      rw [check_outputs_no_key hm hk3]
    have hsum : (generate_summary (templateOf (.ok t))).2 = Except.ok () := by
      apply generate_summary_ok
      simp only [templateOf, summaryOk, Bool.and_eq_true]
      refine ⟨hm, ?_⟩
      cases t with
      | map kvs =>
        simp only [summaryLensOk, Bool.and_eq_true]
        exact ⟨⟨lenOkIfPresent_none (hasKey_false_assoc_none hk1),
          lenOkIfPresent_none (hasKey_false_assoc_none hk2)⟩,
          lenOkIfPresent_none (hasKey_false_assoc_none hk3)⟩
      | null => rfl
      | bool b => rfl
      | int n => rfl
      | str s => rfl
      | list xs => rfl
    have hres := run_all_checks_result hsum
    have hcount := runAllSteps_count_load_only h1 h2 h3 h4
    rw [hcount] at hres
    exact ⟨hres.1, hres.2⟩

/-- C1 witness: the specification's example template yields success and
5/5; a one-entry mapping with none of the three sections yields failure
and 1/5. -/
theorem C1_run_all_tally_witness :
    ((run_all_checks (.ok exampleTemplate)).2 = Except.ok true ∧
      "\n✅ Validation complete: 5/5 checks passed"
        ∈ (run_all_checks (.ok exampleTemplate)).1) ∧
    ((run_all_checks (.ok (.map [("Foo", .int 1)]))).2 = Except.ok false ∧
      "\n✅ Validation complete: 1/5 checks passed"
        ∈ (run_all_checks (.ok (.map [("Foo", .int 1)]))).1) :=
  ⟨(C1_run_all_tally exampleTemplate).1 (by decide),
   (C1_run_all_tally (.map [("Foo", .int 1)])).2 rfl rfl rfl rfl⟩

/-- C10 witness: a concrete run of `run_all_checks` after a load leaves the
stored document unchanged. -/
theorem C10_template_read_only_witness :
    (run_all_checks_op (Except.ok (Yaml.map [("Foo", Yaml.int 1)]))
        (load_template_op (Except.ok (Yaml.map [("Foo", Yaml.int 1)]))
          (AgentConfigTester.init default_template_file)).1).1.template
      = (load_template_op (Except.ok (Yaml.map [("Foo", Yaml.int 1)]))
          (AgentConfigTester.init default_template_file)).1.template :=
  (C10_template_read_only (Except.ok (Yaml.map [("Foo", Yaml.int 1)]))
    (AgentConfigTester.init default_template_file)).2.2.2.2.2.2
